import Mathlib

/-!
Shallow embedding of the orchestration kernel of the universal-copilot
platform: tenant policy resolution, the generation gateway (dispatch,
call logging, re-raise), the provider adapters' credential checks, the
RAG index naming, the vector-retrieval path and the support flow.

Python exceptions are modelled as values of `PyExc` (class name plus
message) and fallible code returns `Except PyExc α`.  Side effects that
the claims observe (persisted call-log rows, adapter invocations) are
returned explicitly in outcome records.  Diagnostic logging (loguru)
has no observable effect and is not modelled.
-/

/-- Model of a Python exception: its class name and its message. -/
structure PyExc where
  kind : String
  msg : String
deriving DecidableEq, Repr

/-- Python `x or d` on an optional string: `None` and the empty string
are falsy, any other string is returned unchanged. -/
def pyOrStr (x : Option String) (d : String) : String :=
  match x with
  | none => d
  | some s => if s = "" then d else s

/-- Python truthiness test `not x` for an optional string (also models
pydantic secret values, whose length decides truthiness): `None` and
the empty string are falsy. -/
def pyFalsyStr (x : Option String) : Bool :=
  match x with
  | none => true
  | some s => s = ""

/-- The slice of `Settings` the kernel reads: the two optional default
LLM policy attributes read via `getattr(settings, _, None)` in
`resolve_provider_spec`, and the optional provider credentials read by
the adapters.  `none` models an absent attribute / unset field. -/
structure GatewaySettings where
  llm_default_provider : Option String := none
  llm_default_model : Option String := none
  openai_api_key : Option String := none
  anthropic_api_key : Option String := none
  watsonx_api_key : Option String := none
  watsonx_project_id : Option String := none
deriving DecidableEq, Repr

/-- Provider spec resolved per request (`gateway.ProviderSpec`). -/
structure ProviderSpec where
  name : String
  model : String
deriving DecidableEq, Repr

/-- Embedding of `gateway.resolve_provider_spec`: reads the default
provider/model from settings with `getattr(..., None) or fallback`;
the tenant and use-case arguments are accepted but not consulted (the
per-tenant override lookup is a documented TODO in the source). -/
def resolve_provider_spec (st : GatewaySettings)
    (tenant_id use_case : String) : ProviderSpec :=
  let _ := tenant_id
  let _ := use_case
  let default_provider := pyOrStr st.llm_default_provider "openai"
  let default_model := pyOrStr st.llm_default_model "gpt-4.1-mini"
  ⟨default_provider, default_model⟩

/-- Embedding of `rag.indexes.index_name`: the f-string
`f"{tenant_id}__{use_case}__{source}"`. -/
def index_name (tenant_id use_case source : String) : String :=
  tenant_id ++ "__" ++ use_case ++ "__" ++ source

/-- One row of the `llm_call_logs` table as built by
`gateway._log_llm_call` (`LLMCallLog` constructor arguments). -/
structure CallLogEntry where
  tenant_id : String
  use_case_id : String
  provider_name : String
  model_name : String
  tokens_input : Nat
  tokens_output : Nat
  latency_ms : Nat
  status : String
  error_type : Option String
  error_message : Option String
deriving DecidableEq, Repr

/-- The success-path log row of `gateway.generate`: literal zeros for
tokens and latency (the source carries a TODO to derive them from the
provider response) and `status="success"`. -/
def successLogEntry (tenant_id use_case : String)
    (spec : ProviderSpec) : CallLogEntry :=
  { tenant_id := tenant_id
    use_case_id := use_case
    provider_name := spec.name
    model_name := spec.model
    tokens_input := 0
    tokens_output := 0
    latency_ms := 0
    status := "success"
    error_type := none
    error_message := none }

/-- The error-path log row of `gateway.generate`: zeros for tokens and
latency, `status="error"`, and the caught exception's class name and
message. -/
def errorLogEntry (tenant_id use_case : String)
    (spec : ProviderSpec) (exc : PyExc) : CallLogEntry :=
  { tenant_id := tenant_id
    use_case_id := use_case
    provider_name := spec.name
    model_name := spec.model
    tokens_input := 0
    tokens_output := 0
    latency_ms := 0
    status := "error"
    error_type := some exc.kind
    error_message := some exc.msg }

/-- Observable outcome of one `gateway.generate` call: the value
returned or exception raised, the call-log rows successfully
persisted, and how many times an adapter's `generate` was invoked. -/
structure GenOutcome (R : Type) where
  result : Except PyExc R
  logs : List CallLogEntry
  adapterCalls : Nat
deriving Repr

namespace Gateway

/-- Embedding of `gateway.generate`.  The registry lookup
`providers.get(spec.name)` and the invocation of the found adapter are
merged into `registry : String → Option (Except PyExc R)`: `none`
models an unregistered provider name, `some b` an adapter whose
`generate` call on this request behaves as `b`.  `logWrite` models
`_log_llm_call` (the DB insert/commit), which the source awaits with
no surrounding try/except of its own.

Control flow mirrored from the source:
the `try` block contains both the adapter call and the success-path
log write, so a failing success-path write falls into the `except`
block; the `except` block writes an error row and then re-raises, so a
failing error-path write propagates instead of the original
exception. -/
def generate (R : Type) (st : GatewaySettings)
    (registry : String → Option (Except PyExc R))
    (logWrite : CallLogEntry → Except PyExc Unit)
    (tenant_id use_case : String) : GenOutcome R :=
  let spec := resolve_provider_spec st tenant_id use_case
  match registry spec.name with
  | none =>
      -- `raise ValueError(f"Unknown provider ...")`; message simplified
      -- to drop the quoting around the name.
      { result := .error ⟨"ValueError", "Unknown provider " ++ spec.name⟩
        logs := []
        adapterCalls := 0 }
  | some adapterResult =>
      match adapterResult with
      | .ok response =>
          let entry := successLogEntry tenant_id use_case spec
          match logWrite entry with
          | .ok _ =>
              { result := .ok response, logs := [entry], adapterCalls := 1 }
          | .error logExc =>
              -- success-path write raised: control reaches `except` with
              -- the log exception as the active exception.
              let errEntry := errorLogEntry tenant_id use_case spec logExc
              match logWrite errEntry with
              | .ok _ =>
                  { result := .error logExc, logs := [errEntry], adapterCalls := 1 }
              | .error logExc2 =>
                  { result := .error logExc2, logs := [], adapterCalls := 1 }
      | .error exc =>
          let errEntry := errorLogEntry tenant_id use_case spec exc
          match logWrite errEntry with
          | .ok _ =>
              -- `raise` re-raises the original exception unchanged.
              { result := .error exc, logs := [errEntry], adapterCalls := 1 }
          | .error logExc =>
              -- the error-path write raised inside the `except` block:
              -- that exception propagates, the `raise` is never reached.
              { result := .error logExc, logs := [], adapterCalls := 1 }

end Gateway

/-- Names registered by `gateway._init_providers`: one long-lived
adapter per vendor. -/
def registeredProviderNames : List String :=
  ["openai", "anthropic", "watsonx", "ollama"]

/-- The process-wide registry built by `_init_providers`, with the
per-request behaviour of each registered adapter supplied by
`behaviors`. -/
def defaultRegistry (R : Type) (behaviors : String → Except PyExc R) :
    String → Option (Except PyExc R) :=
  fun n => if n ∈ registeredProviderNames then some (behaviors n) else none

/-- Observable outcome of one provider-adapter `generate` call: the
value returned or exception raised, and the number of HTTP requests
issued to the vendor. -/
structure ProviderOutcome (R : Type) where
  result : Except PyExc R
  httpCalls : Nat
deriving Repr

namespace OpenAIProvider

/-- Embedding of `OpenAIProvider.generate`: rejects with
`RuntimeError("OpenAI API key not configured")` before any HTTP
request when `settings.openai_api_key` is falsy; otherwise performs
the `POST /chat/completions` call, whose behaviour on this request is
supplied as `http` (success value, or the exception from a non-2xx
`raise_for_status` or network failure). -/
def generate (R : Type) (st : GatewaySettings)
    (http : Except PyExc R) : ProviderOutcome R :=
  if pyFalsyStr st.openai_api_key then
    { result := .error ⟨"RuntimeError", "OpenAI API key not configured"⟩
      httpCalls := 0 }
  else
    { result := http, httpCalls := 1 }

end OpenAIProvider

namespace AnthropicProvider

/-- Embedding of `AnthropicProvider.generate`: rejects with
`RuntimeError("Anthropic API key not configured")` before any HTTP
request when `settings.anthropic_api_key` is falsy; otherwise performs
the `POST /v1/messages` call supplied as `http`. -/
def generate (R : Type) (st : GatewaySettings)
    (http : Except PyExc R) : ProviderOutcome R :=
  if pyFalsyStr st.anthropic_api_key then
    { result := .error ⟨"RuntimeError", "Anthropic API key not configured"⟩
      httpCalls := 0 }
  else
    { result := http, httpCalls := 1 }

end AnthropicProvider

namespace WatsonxProvider

/-- Embedding of `WatsonxProvider.generate`: rejects with
`RuntimeError("watsonx.ai credentials not fully configured")` before
any HTTP request when `settings.watsonx_api_key` or
`settings.watsonx_project_id` is falsy; otherwise performs the
`POST /ml/v1/text/generation` call supplied as `http`. -/
def generate (R : Type) (st : GatewaySettings)
    (http : Except PyExc R) : ProviderOutcome R :=
  if pyFalsyStr st.watsonx_api_key || pyFalsyStr st.watsonx_project_id then
    { result := .error ⟨"RuntimeError", "watsonx.ai credentials not fully configured"⟩
      httpCalls := 0 }
  else
    { result := http, httpCalls := 1 }

end WatsonxProvider

/-- A retrieved document as a Python dict with optional `id` and
`text` keys (`none` models an absent key). -/
structure RagDoc where
  id : Option String := none
  text : Option String := none
deriving DecidableEq, Repr

namespace VectorClient

/-- Embedding of `VectorClient.query`: after a debug log, the source
unconditionally returns the empty list (the engine call is commented
out, `return []` is the "safe placeholder"). -/
def query (idx query_text : String) (top_k : Nat) : List RagDoc :=
  let _ := idx
  let _ := query_text
  let _ := top_k
  []

end VectorClient

namespace VectorSearchTool

/-- Embedding of `VectorSearchTool.__call__`: derives the index name
from the tool's tenant/use-case and the call's source, then delegates
to `VectorClient.query`. -/
def call (tenant_id use_case query source : String) (top_k : Nat) :
    List RagDoc :=
  VectorClient.query (index_name tenant_id use_case source) query top_k

end VectorSearchTool

/-- A chat message dict with `role` and `content` keys. -/
structure ChatMsg where
  role : String
  content : String
deriving DecidableEq, Repr

/-- Inner message dict of an LLM response choice; `content` may be
absent. -/
structure LlmChoiceMessage where
  content : Option String := none
deriving DecidableEq, Repr

/-- One element of the `choices` list of an LLM response; the
`message` key may be absent. -/
structure LlmChoice where
  message : Option LlmChoiceMessage := none
deriving DecidableEq, Repr

/-- An LLM response dict as read by the support flow: only the
optional `choices` key is consulted. -/
structure LlmResponse where
  choices : Option (List LlmChoice) := none
deriving DecidableEq, Repr

/-- Embedding of the answer extraction
`llm_response.get("choices", [{}])[0].get("message", {}).get("content", "")`:
`none` models the `IndexError` raised when the response holds an
explicit empty `choices` list. -/
def extract_answer (r : LlmResponse) : Option String :=
  match r.choices.getD [{}] with
  | [] => none
  | c :: _ => some ((c.message.getD {}).content.getD "")

/-- Normalized support reply (`SupportReply` fields set by
`run_support_flow`; `confidence` is always `None` there). -/
structure SupportReplyR where
  answer : String
  sources : List String
  confidence : Option Nat := none
  escalation_flag : Bool := false
deriving DecidableEq, Repr

/-- The system instruction of the support flow, verbatim. -/
def supportSystemPrompt : String :=
  "You are a helpful support copilot. Answer using ONLY the context provided. " ++
  "If you are unsure, say you are unsure and recommend escalation."

/-- Observable outcome of one `run_support_flow` call: the reply or
exception, the messages sent to the gateway, and the number of
gateway `generate` calls made. -/
structure FlowOutcome where
  result : Except PyExc SupportReplyR
  sentMessages : List ChatMsg
  llmCalls : Nat
deriving Repr

namespace SupportCrew

/-- Embedding of `SupportCrew.run_support_flow`.  `docs` is what the
RAG tool returned for the query (the deployed tool always returns
`[]`, see `VectorSearchTool.call`); `llm` is the behaviour of the
gateway `generate` call on the composed messages.  The context block
joins the `text` of docs carrying that key with blank lines; the
reply's sources are each doc's `id` (empty string when absent). -/
def run_support_flow (payload_message : String) (docs : List RagDoc)
    (llm : List ChatMsg → Except PyExc LlmResponse) : FlowOutcome :=
  let context_snippets := String.intercalate "\n\n" (docs.filterMap (·.text))
  let messages : List ChatMsg :=
    [ { role := "system", content := supportSystemPrompt },
      { role := "user",
        content := "User message: " ++ payload_message ++
          "\n\nContext:\n" ++ context_snippets } ]
  match llm messages with
  | .error e => { result := .error e, sentMessages := messages, llmCalls := 1 }
  | .ok r =>
      match extract_answer r with
      | none =>
          { result := .error ⟨"IndexError", "list index out of range"⟩
            sentMessages := messages
            llmCalls := 1 }
      | some ans =>
          { result := .ok
              { answer := ans
                sources := docs.map (fun d => d.id.getD "")
                confidence := none
                escalation_flag := false }
            sentMessages := messages
            llmCalls := 1 }

end SupportCrew

/-- Appending the same string on the right is cancellable. -/
theorem strAppend_right_cancel {a b x : String} (h : a ++ x = b ++ x) :
    a = b := by
  apply String.ext
  have h2 := congrArg String.data h
  simp only [String.data_append] at h2
  exact List.append_cancel_right h2

/-- Appending the same string on the left is cancellable. -/
theorem strAppend_left_cancel {x a b : String} (h : x ++ a = x ++ b) :
    a = b := by
  apply String.ext
  have h2 := congrArg String.data h
  simp only [String.data_append] at h2
  exact List.append_cancel_left h2

/-- Unique splitting at a double-underscore separator: when neither
left part contains an underscore, the decomposition
`a ++ "__" ++ rest` is unambiguous. -/
theorem sepSplit (a : List Char) : ∀ (b x y : List Char),
    '_' ∉ a → '_' ∉ b →
    a ++ '_' :: '_' :: x = b ++ '_' :: '_' :: y → a = b ∧ x = y := by
  induction a with
  | nil =>
      intro b x y _ hb h
      cases b with
      | nil =>
          simp only [List.nil_append, List.cons.injEq, true_and] at h
          exact ⟨rfl, h⟩
      | cons c b2 =>
          simp only [List.nil_append, List.cons_append, List.cons.injEq] at h
          exact absurd (h.1 ▸ List.mem_cons_self c b2) (h.1 ▸ hb)
  | cons c a2 ih =>
      intro b x y ha hb h
      cases b with
      | nil =>
          simp only [List.cons_append, List.nil_append, List.cons.injEq] at h
          exact absurd (h.1 ▸ List.mem_cons_self c a2) (h.1 ▸ ha)
      | cons d b2 =>
          simp only [List.cons_append, List.cons.injEq] at h
          have ha2 : '_' ∉ a2 := fun hm => ha (List.mem_cons_of_mem c hm)
          have hb2 : '_' ∉ b2 := fun hm => hb (List.mem_cons_of_mem d hm)
          obtain ⟨heq, hx⟩ := ih b2 x y ha2 hb2 h.2
          exact ⟨by rw [h.1, heq], hx⟩

/-- Full parsing uniqueness for `index_name` on components free of the
underscore character. -/
theorem index_name_parse_unique (t1 u1 s1 t2 u2 s2 : String)
    (ht1 : '_' ∉ t1.data) (hu1 : '_' ∉ u1.data) (hs1 : '_' ∉ s1.data)
    (ht2 : '_' ∉ t2.data) (hu2 : '_' ∉ u2.data) (hs2 : '_' ∉ s2.data)
    (h : index_name t1 u1 s1 = index_name t2 u2 s2) :
    t1 = t2 ∧ u1 = u2 ∧ s1 = s2 := by
  have h2 := congrArg String.data h
  simp only [index_name, String.data_append] at h2
  have h3 : t1.data ++ '_' :: '_' :: (u1.data ++ '_' :: '_' :: s1.data) =
      t2.data ++ '_' :: '_' :: (u2.data ++ '_' :: '_' :: s2.data) := by
    simpa [List.append_assoc] using h2
  obtain ⟨hT, hRest⟩ :=
    sepSplit t1.data (t2.data) (u1.data ++ '_' :: '_' :: s1.data)
      (u2.data ++ '_' :: '_' :: s2.data) ht1 ht2 h3
  obtain ⟨hU, hS⟩ := sepSplit u1.data (u2.data) s1.data s2.data hu1 hu2 hRest
  exact ⟨String.ext hT, String.ext hU, String.ext hS⟩

/-- C4 counterexample: two distinct triples whose `index_name` values
coincide — the separator can be forged by underscores inside the
components. -/
theorem index_name_collision_cex :
    (("a_", "b", "s") : String × String × String) ≠ ("a", "_b", "s") ∧
    index_name "a_" "b" "s" = index_name "a" "_b" "s" := by
  exact ⟨by decide, rfl⟩

/-- C4 (amended): the index-identity mapping never collides on full
triples whose components are free of the underscore character, and the
mapping is a pure function of its three inputs (intrinsic to the
functional embedding, stated as determinism). -/
theorem index_name_no_collision_underscore_free :
    (∀ t1 u1 s1 t2 u2 s2 : String,
      '_' ∉ t1.data → '_' ∉ u1.data → '_' ∉ s1.data →
      '_' ∉ t2.data → '_' ∉ u2.data → '_' ∉ s2.data →
      (t1, u1, s1) ≠ (t2, u2, s2) →
      index_name t1 u1 s1 ≠ index_name t2 u2 s2) ∧
    (∀ t u s : String, index_name t u s = index_name t u s) := by
  constructor
  · intro t1 u1 s1 t2 u2 s2 ht1 hu1 hs1 ht2 hu2 hs2 hne h
    obtain ⟨hT, hU, hS⟩ :=
      index_name_parse_unique t1 u1 s1 t2 u2 s2 ht1 hu1 hs1 ht2 hu2 hs2 h
    exact hne (by rw [hT, hU, hS])
  · intro t u s
    rfl

/-- Witness for C4 (amended) at concrete underscore-free triples. -/
theorem index_name_no_collision_underscore_free_witness :
    index_name "ta" "ub" "kb" ≠ index_name "tb" "ub" "kb" :=
  index_name_no_collision_underscore_free.1 "ta" "ub" "kb" "tb" "ub" "kb"
    (by decide) (by decide) (by decide) (by decide) (by decide) (by decide)
    (by decide)

/-- C5: `index_name` is injective in each component separately, is
deterministic, and maps the scenario-B input to
`"tenant_a__support__kb"`. -/
theorem index_name_componentwise :
    (∀ t1 t2 u s : String, t1 ≠ t2 →
      index_name t1 u s ≠ index_name t2 u s) ∧
    (∀ t u1 u2 s : String, u1 ≠ u2 →
      index_name t u1 s ≠ index_name t u2 s) ∧
    (∀ t u s1 s2 : String, s1 ≠ s2 →
      index_name t u s1 ≠ index_name t u s2) ∧
    (∀ t u s : String, index_name t u s = index_name t u s) ∧
    index_name "tenant_a" "support" "kb" = "tenant_a__support__kb" := by
  refine ⟨?_, ?_, ?_, fun t u s => rfl, rfl⟩
  · intro t1 t2 u s hne h
    apply hne
    unfold index_name at h
    exact strAppend_right_cancel (strAppend_right_cancel
      (strAppend_right_cancel (strAppend_right_cancel h)))
  · intro t u1 u2 s hne h
    apply hne
    unfold index_name at h
    have h1 := strAppend_right_cancel (strAppend_right_cancel h)
    exact strAppend_left_cancel h1
  · intro t u s1 s2 hne h
    apply hne
    unfold index_name at h
    exact strAppend_left_cancel h

/-- Witness for C5 at concrete inputs. -/
theorem index_name_componentwise_witness :
    index_name "tenant_a" "support" "kb" ≠ index_name "tenant_b" "support" "kb" :=
  index_name_componentwise.1 "tenant_a" "tenant_b" "support" "kb" (by decide)

/-- C3: with no per-tenant override mechanism present and no default
provider/model carried by the settings, `resolve_provider_spec`
returns the fixed global default `("openai", "gpt-4.1-mini")` for
every (tenant, use-case) pair, and repeated calls on the same settings
snapshot agree. -/
theorem resolve_provider_spec_default (st : GatewaySettings)
    (tenant_id use_case : String)
    (hp : st.llm_default_provider = none)
    (hm : st.llm_default_model = none) :
    resolve_provider_spec st tenant_id use_case =
      ⟨"openai", "gpt-4.1-mini"⟩ ∧
    resolve_provider_spec st tenant_id use_case =
      resolve_provider_spec st tenant_id use_case := by
  refine ⟨?_, rfl⟩
  simp [resolve_provider_spec, pyOrStr, hp, hm]

/-- Witness for C3 at a concrete settings snapshot with no defaults. -/
theorem resolve_provider_spec_default_witness :
    resolve_provider_spec ⟨none, none, none, none, none, none⟩
      "tenant_a" "support" = ⟨"openai", "gpt-4.1-mini"⟩ :=
  (resolve_provider_spec_default ⟨none, none, none, none, none, none⟩
    "tenant_a" "support" rfl rfl).1

/-- C1 counterexample: a generate call whose resolved provider name is
not registered raises and persists no CallLogEntry at all, so not
every call produces exactly one entry. -/
theorem gateway_zero_entries_cex :
    (Gateway.generate Nat { llm_default_provider := some "mistral" }
      (defaultRegistry Nat (fun _ => Except.ok 0))
      (fun _ => Except.ok ()) "tenant_a" "support").logs = [] ∧
    (Gateway.generate Nat { llm_default_provider := some "mistral" }
      (defaultRegistry Nat (fun _ => Except.ok 0))
      (fun _ => Except.ok ()) "tenant_a" "support").result =
      Except.error ⟨"ValueError", "Unknown provider mistral"⟩ := by
  exact ⟨rfl, rfl⟩

/-- C1 (amended): every generate call that dispatches to a registered
provider persists, when the log sink accepts every write, exactly one
CallLogEntry, with status `success` if generate returned a result and
`error` if it raised. -/
theorem gateway_generate_logs_exactly_one (R : Type) (st : GatewaySettings)
    (registry : String → Option (Except PyExc R))
    (logWrite : CallLogEntry → Except PyExc Unit)
    (tenant_id use_case : String) (b : Except PyExc R)
    (hreg : registry (resolve_provider_spec st tenant_id use_case).name = some b)
    (hlog : ∀ e, logWrite e = Except.ok ()) :
    (∃ r e, (Gateway.generate R st registry logWrite tenant_id use_case).result
        = Except.ok r ∧
      (Gateway.generate R st registry logWrite tenant_id use_case).logs = [e] ∧
      e.status = "success") ∨
    (∃ ex e, (Gateway.generate R st registry logWrite tenant_id use_case).result
        = Except.error ex ∧
      (Gateway.generate R st registry logWrite tenant_id use_case).logs = [e] ∧
      e.status = "error") := by
  cases b with
  | ok r =>
      left
      refine ⟨r, successLogEntry tenant_id use_case
        (resolve_provider_spec st tenant_id use_case), ?_, ?_, rfl⟩ <;>
        simp only [Gateway.generate, hreg, hlog]
  | error exc =>
      right
      refine ⟨exc, errorLogEntry tenant_id use_case
        (resolve_provider_spec st tenant_id use_case) exc, ?_, ?_, rfl⟩ <;>
        simp only [Gateway.generate, hreg, hlog]

/-- Witness for C1 (amended): a concrete dispatched call with a
well-behaved log sink. -/
theorem gateway_generate_logs_exactly_one_witness :
    (∃ r e, (Gateway.generate Nat {} (defaultRegistry Nat (fun _ => Except.ok 7))
        (fun _ => Except.ok ()) "tenant_a" "support").result = Except.ok r ∧
      (Gateway.generate Nat {} (defaultRegistry Nat (fun _ => Except.ok 7))
        (fun _ => Except.ok ()) "tenant_a" "support").logs = [e] ∧
      e.status = "success") ∨
    (∃ ex e, (Gateway.generate Nat {} (defaultRegistry Nat (fun _ => Except.ok 7))
        (fun _ => Except.ok ()) "tenant_a" "support").result = Except.error ex ∧
      (Gateway.generate Nat {} (defaultRegistry Nat (fun _ => Except.ok 7))
        (fun _ => Except.ok ()) "tenant_a" "support").logs = [e] ∧
      e.status = "error") :=
  gateway_generate_logs_exactly_one Nat {}
    (defaultRegistry Nat (fun _ => Except.ok 7)) (fun _ => Except.ok ())
    "tenant_a" "support" (Except.ok 7) rfl (fun _ => rfl)

/-- C2 counterexample: the adapter raises `UpstreamError` but the
error-path log write raises `OperationalError`, and the exception
reaching the caller is the log exception, not the adapter's. -/
theorem gateway_log_failure_masks_cex :
    (Gateway.generate Nat {}
      (defaultRegistry Nat (fun _ => Except.error ⟨"UpstreamError", "upstream 500"⟩))
      (fun _ => Except.error ⟨"OperationalError", "db down"⟩)
      "tenant_a" "support").result =
      Except.error ⟨"OperationalError", "db down"⟩ ∧
    (⟨"OperationalError", "db down"⟩ : PyExc) ≠ ⟨"UpstreamError", "upstream 500"⟩ := by
  exact ⟨rfl, by decide⟩

/-- C2 (amended): when the adapter call raises and the error-path log
write succeeds, generate re-raises the very same exception (same kind
and message); when the error-path log write itself raises, the log
exception propagates instead of the original. -/
theorem gateway_generate_reraises_original (R : Type) (st : GatewaySettings)
    (registry : String → Option (Except PyExc R))
    (logWrite : CallLogEntry → Except PyExc Unit)
    (tenant_id use_case : String) (exc : PyExc)
    (hreg : registry (resolve_provider_spec st tenant_id use_case).name =
      some (Except.error exc))
    (hlog : logWrite (errorLogEntry tenant_id use_case
      (resolve_provider_spec st tenant_id use_case) exc) = Except.ok ()) :
    (Gateway.generate R st registry logWrite tenant_id use_case).result =
      Except.error exc := by
  simp only [Gateway.generate, hreg, hlog]

/-- Witness for C2 (amended) at a concrete failing adapter. -/
theorem gateway_generate_reraises_original_witness :
    (Gateway.generate Nat {}
      (defaultRegistry Nat (fun _ => Except.error ⟨"UpstreamError", "boom"⟩))
      (fun _ => Except.ok ()) "tenant_a" "support").result =
      Except.error ⟨"UpstreamError", "boom"⟩ :=
  gateway_generate_reraises_original Nat {}
    (defaultRegistry Nat (fun _ => Except.error ⟨"UpstreamError", "boom"⟩))
    (fun _ => Except.ok ()) "tenant_a" "support" ⟨"UpstreamError", "boom"⟩
    rfl rfl

/-- C6: when the resolved provider name is absent from the registry,
generate raises a `ValueError` (the unknown-provider error) with no
adapter invocation and no persisted CallLogEntry. -/
theorem gateway_unknown_provider_predispatch (R : Type)
    (st : GatewaySettings)
    (registry : String → Option (Except PyExc R))
    (logWrite : CallLogEntry → Except PyExc Unit)
    (tenant_id use_case : String)
    (hreg : registry (resolve_provider_spec st tenant_id use_case).name = none) :
    (∃ m, (Gateway.generate R st registry logWrite tenant_id use_case).result =
      Except.error ⟨"ValueError", m⟩) ∧
    (Gateway.generate R st registry logWrite tenant_id use_case).logs = [] ∧
    (Gateway.generate R st registry logWrite tenant_id use_case).adapterCalls = 0 := by
  refine ⟨⟨"Unknown provider " ++ (resolve_provider_spec st tenant_id use_case).name, ?_⟩, ?_, ?_⟩ <;>
    simp only [Gateway.generate, hreg]

/-- Witness for C6: a concrete policy resolving to an unregistered
name, with a recording stub registry. -/
theorem gateway_unknown_provider_predispatch_witness :
    (∃ m, (Gateway.generate Nat { llm_default_provider := some "groq" }
      (defaultRegistry Nat (fun _ => Except.ok 0))
      (fun _ => Except.ok ()) "tenant_a" "support").result =
      Except.error ⟨"ValueError", m⟩) ∧
    (Gateway.generate Nat { llm_default_provider := some "groq" }
      (defaultRegistry Nat (fun _ => Except.ok 0))
      (fun _ => Except.ok ()) "tenant_a" "support").logs = [] ∧
    (Gateway.generate Nat { llm_default_provider := some "groq" }
      (defaultRegistry Nat (fun _ => Except.ok 0))
      (fun _ => Except.ok ()) "tenant_a" "support").adapterCalls = 0 :=
  gateway_unknown_provider_predispatch Nat { llm_default_provider := some "groq" }
    (defaultRegistry Nat (fun _ => Except.ok 0)) (fun _ => Except.ok ())
    "tenant_a" "support" rfl

/-- Adapter response carrying token usage, for observing what the
gateway records about it. -/
structure UsageResp where
  prompt_tokens : Nat
  completion_tokens : Nat
deriving DecidableEq, Repr

/-- C8 evidence: on a successful adapter call whose response carries
nonzero token usage, the persisted CallLogEntry records zero for both
token counts and zero latency — the gateway never reads the response's
usage and never measures latency (a TODO in the source). -/
theorem gateway_records_zero_tokens_and_latency :
    (Gateway.generate UsageResp {}
      (defaultRegistry UsageResp (fun _ => Except.ok ⟨10, 8⟩))
      (fun _ => Except.ok ()) "tenant_a" "support").result =
      Except.ok ⟨10, 8⟩ ∧
    (Gateway.generate UsageResp {}
      (defaultRegistry UsageResp (fun _ => Except.ok ⟨10, 8⟩))
      (fun _ => Except.ok ()) "tenant_a" "support").logs =
      [successLogEntry "tenant_a" "support" ⟨"openai", "gpt-4.1-mini"⟩] ∧
    (successLogEntry "tenant_a" "support"
      ⟨"openai", "gpt-4.1-mini"⟩).tokens_input = 0 ∧
    (successLogEntry "tenant_a" "support"
      ⟨"openai", "gpt-4.1-mini"⟩).tokens_output = 0 ∧
    (successLogEntry "tenant_a" "support"
      ⟨"openai", "gpt-4.1-mini"⟩).latency_ms = 0 := by
  exact ⟨rfl, rfl, rfl, rfl, rfl⟩

/-- C7: each credential-requiring adapter rejects with a configuration
error (a `RuntimeError` naming the missing credentials) before issuing
any HTTP request, when the required credentials are absent from
settings. -/
theorem providers_reject_missing_credentials :
    (∀ (R : Type) (st : GatewaySettings) (http : Except PyExc R),
      st.openai_api_key = none →
      (OpenAIProvider.generate R st http).result =
        Except.error ⟨"RuntimeError", "OpenAI API key not configured"⟩ ∧
      (OpenAIProvider.generate R st http).httpCalls = 0) ∧
    (∀ (R : Type) (st : GatewaySettings) (http : Except PyExc R),
      st.anthropic_api_key = none →
      (AnthropicProvider.generate R st http).result =
        Except.error ⟨"RuntimeError", "Anthropic API key not configured"⟩ ∧
      (AnthropicProvider.generate R st http).httpCalls = 0) ∧
    (∀ (R : Type) (st : GatewaySettings) (http : Except PyExc R),
      st.watsonx_api_key = none ∨ st.watsonx_project_id = none →
      (WatsonxProvider.generate R st http).result =
        Except.error ⟨"RuntimeError", "watsonx.ai credentials not fully configured"⟩ ∧
      (WatsonxProvider.generate R st http).httpCalls = 0) := by
  refine ⟨?_, ?_, ?_⟩
  · intro R st http h
    constructor <;> simp [OpenAIProvider.generate, pyFalsyStr, h]
  · intro R st http h
    constructor <;> simp [AnthropicProvider.generate, pyFalsyStr, h]
  · intro R st http h
    rcases h with h | h <;>
      constructor <;> simp [WatsonxProvider.generate, pyFalsyStr, h]

/-- Witness for C7: settings with every credential absent. -/
theorem providers_reject_missing_credentials_witness :
    (OpenAIProvider.generate Nat ⟨none, none, none, none, none, none⟩
      (Except.ok 0)).httpCalls = 0 ∧
    (AnthropicProvider.generate Nat ⟨none, none, none, none, none, none⟩
      (Except.ok 0)).httpCalls = 0 ∧
    (WatsonxProvider.generate Nat ⟨none, none, none, none, none, none⟩
      (Except.ok 0)).httpCalls = 0 :=
  ⟨(providers_reject_missing_credentials.1 Nat
      ⟨none, none, none, none, none, none⟩ (Except.ok 0) rfl).2,
   (providers_reject_missing_credentials.2.1 Nat
      ⟨none, none, none, none, none, none⟩ (Except.ok 0) rfl).2,
   (providers_reject_missing_credentials.2.2 Nat
      ⟨none, none, none, none, none, none⟩ (Except.ok 0) (Or.inl rfl)).2⟩

/-- C9: a support-flow run whose retrieval step returned zero
documents is not an error: exactly one generation call is made, its
composed messages end in an empty context block, and the reply carries
an empty sources list. -/
theorem support_flow_empty_retrieval (payload_message : String)
    (llm : List ChatMsg → Except PyExc LlmResponse)
    (resp : LlmResponse) (ans : String)
    (hllm : ∀ ms, llm ms = Except.ok resp)
    (hex : extract_answer resp = some ans) :
    (SupportCrew.run_support_flow payload_message [] llm).llmCalls = 1 ∧
    (SupportCrew.run_support_flow payload_message [] llm).sentMessages =
      [⟨"system", supportSystemPrompt⟩,
       ⟨"user", "User message: " ++ payload_message ++ "\n\nContext:\n"⟩] ∧
    (SupportCrew.run_support_flow payload_message [] llm).result =
      Except.ok ⟨ans, [], none, false⟩ := by
  have hctx : String.intercalate "\n\n" ([] : List String) = "" := rfl
  refine ⟨?_, ?_, ?_⟩ <;>
    simp only [SupportCrew.run_support_flow, List.filterMap_nil, hctx,
      String.append_empty, hllm, hex, List.map_nil]

/-- Witness for C9 at a concrete query and stub LLM. -/
theorem support_flow_empty_retrieval_witness :
    (SupportCrew.run_support_flow "My VPN is down" []
      (fun _ => Except.ok ⟨some [⟨some ⟨some "Please escalate."⟩⟩]⟩)).llmCalls = 1 ∧
    (SupportCrew.run_support_flow "My VPN is down" []
      (fun _ => Except.ok ⟨some [⟨some ⟨some "Please escalate."⟩⟩]⟩)).sentMessages =
      [⟨"system", supportSystemPrompt⟩,
       ⟨"user", "User message: " ++ "My VPN is down" ++ "\n\nContext:\n"⟩] ∧
    (SupportCrew.run_support_flow "My VPN is down" []
      (fun _ => Except.ok ⟨some [⟨some ⟨some "Please escalate."⟩⟩]⟩)).result =
      Except.ok ⟨"Please escalate.", [], none, false⟩ :=
  support_flow_empty_retrieval "My VPN is down"
    (fun _ => Except.ok ⟨some [⟨some ⟨some "Please escalate."⟩⟩]⟩)
    ⟨some [⟨some ⟨some "Please escalate."⟩⟩]⟩ "Please escalate."
    (fun _ => rfl) rfl

/-- C10: the deployed retrieval path returns the empty sequence for
every index name, query text and top-k, both at the vector client and
through the retrieval tool, and (being a total function) never
raises. -/
theorem vector_retrieval_always_empty :
    (∀ (idx query_text : String) (top_k : Nat),
      VectorClient.query idx query_text top_k = []) ∧
    (∀ (tenant_id use_case query source : String) (top_k : Nat),
      VectorSearchTool.call tenant_id use_case query source top_k = []) :=
  ⟨fun _ _ _ => rfl, fun _ _ _ _ _ => rfl⟩
